/-
Verification of the parallel-parking expert system (src/main.py).

Shallow embedding of the core components named by the specification:
the rule-matching decision engine (KnowledgeBase / Rule / ExpertSystem),
the phase state machine (ParkingSimulation.handle_phase_transitions and
manual_phase_transition), the vehicle speed rate limiter (Car.update) and
the ray/corner sensor model (Car.update_sensors).

Conventions of the embedding:
* Python floats are modelled as exact rationals (ℚ); the sensor geometry,
  which uses sqrt/cos/sin, is modelled over ℝ.
* The facts dictionary is modelled as a record of `Option`-valued fields:
  `none` means the key is absent from the dictionary.
* A condition string of a rule is modelled as a function
  `Facts → Option Bool`: `none` models a Python exception while evaluating
  the condition (NameError for a missing fact, AttributeError for an
  attribute of None); `Rule.evaluate` catches every exception and treats
  the rule as non-matching, so a rule matches iff every condition returns
  `some true`.
* An action template is either a numeric literal, a plain string with no
  operator character (never passed to eval, e.g. "20"), or an
  operator-containing expression string paired with its evaluation
  function (`none` models an eval failure, in which case infer leaves the
  unevaluated template string in the actions dictionary).
-/
import Mathlib

namespace Parking

/-- Constant CAR_LENGTH = 80 (main.py line 14). -/
def CAR_LENGTH : ℚ := 80

/-- Constant CAR_WIDTH = 40 (main.py line 15). -/
def CAR_WIDTH : ℚ := 40

/-- Constant SENSOR_RANGE = 400 (main.py line 16). -/
def SENSOR_RANGE : ℚ := 400

/-- Enum ParkingPhase (main.py lines 19-28). -/
inductive ParkingPhase where
  | SEARCHING
  | APPROACH
  | POSITIONING
  | PREPARE_REVERSE
  | REVERSE_RIGHT
  | REVERSE_LEFT
  | FINAL_ADJUST
  | PARKED
  | ABORTED
deriving DecidableEq

/-- The string value of each ParkingPhase member (main.py lines 19-28). -/
def ParkingPhase.value : ParkingPhase → String
  | .SEARCHING => "searching"
  | .APPROACH => "approach"
  | .POSITIONING => "positioning"
  | .PREPARE_REVERSE => "prepare_reverse"
  | .REVERSE_RIGHT => "reverse_right"
  | .REVERSE_LEFT => "reverse_left"
  | .FINAL_ADJUST => "final_adjust"
  | .PARKED => "parked"
  | .ABORTED => "aborted"

/-- Enum Direction (main.py lines 31-33). -/
inductive Direction where
  | FORWARD
  | BACKWARD
deriving DecidableEq

/-- Enum RulePriority (main.py lines 36-39). -/
inductive RulePriority where
  | HIGH
  | MEDIUM
  | LOW
deriving DecidableEq

/-- The numeric value of each RulePriority member (HIGH=3, MEDIUM=2, LOW=1). -/
def RulePriority.value : RulePriority → ℕ
  | .HIGH => 3
  | .MEDIUM => 2
  | .LOW => 1

/-- Dataclass ParkingSpot (main.py lines 42-49). -/
structure ParkingSpot where
  x : ℚ
  y : ℚ
  width : ℚ := 100
  length : ℚ := 120
  occupied : Bool := false
  suitable : Bool := true
deriving DecidableEq

/-- Dataclass ParkingConfig (main.py lines 52-60). -/
structure ParkingConfig where
  turn_radius_ratio : ℚ := 2.5
  sensor_range : ℚ := SENSOR_RANGE
  max_speed : ℚ := 2.5
  max_reverse_speed : ℚ := 1.5
  preferred_direction : Direction := Direction.FORWARD
  safety_margin : ℚ := 30
  steering_sensitivity : ℚ := 0.3

/-- The default configuration built by ParkingSimulation.__init__
(main.py lines 641-648): it repeats the dataclass defaults. -/
def defaultConfig : ParkingConfig := {}

/-- The facts dictionary of the KnowledgeBase: one optional field per key
that is ever stored (ExpertSystem.make_decision lines 487-503 and
KnowledgeBase.infer lines 414-424).  `none` = key absent.
`selected_spot` is doubly optional: the outer layer is key presence, the
inner layer is the stored value which can be Python None.
The derived fact `distance_to_spot` (update_facts lines 405-409, computed
with math.hypot) is read by no rule and no claim and is not tracked. -/
structure Facts where
  phase : Option String := none
  car_x : Option ℚ := none
  car_y : Option ℚ := none
  car_angle : Option ℚ := none
  selected_spot : Option (Option ParkingSpot) := none
  front_left_sensor : Option ℚ := none
  front_sensor : Option ℚ := none
  front_right_sensor : Option ℚ := none
  left_sensor : Option ℚ := none
  right_sensor : Option ℚ := none
  rear_left_sensor : Option ℚ := none
  rear_right_sensor : Option ℚ := none
  rear_sensor : Option ℚ := none
  throttle : Option ℚ := none
  steering : Option ℚ := none
  emergency : Option Bool := none
deriving DecidableEq

/-- Result value of one entry of a rule's actions dictionary after
KnowledgeBase.infer's expression handling (lines 439-455): a number when
the entry is numeric or an expression that evaluated, otherwise the
original string. -/
inductive AVal where
  | num (x : ℚ)
  | str (s : String)
deriving DecidableEq

/-- One throttle/steering entry of a rule's actions dictionary.
infer (line 440) sends a string to eval only when it contains one of
the characters + - * / ( ); `raw` is a string without any of them (for
example "20"), which is returned untouched.  `expr` carries the source
text together with its evaluation against the facts; `none` models an
exception inside eval, which infer catches, leaving the string. -/
inductive ActionTemplate where
  | lit (x : ℚ)
  | raw (s : String)
  | expr (src : String) (evalFn : Facts → Option ℚ)

/-- Dataclass Rule (main.py lines 63-69), with the actions dictionary
split into its four fixed keys (throttle, steering, reasoning,
emergency). -/
structure Rule where
  name : String
  priority : RulePriority
  conditions : List (Facts → Option Bool)
  throttle : ActionTemplate
  steering : ActionTemplate
  reasoning : String
  emergency : Bool
  description : String

/-- Rule.evaluate (main.py lines 71-102): every condition must evaluate,
without exception, to a true value; an exception anywhere (modelled by a
condition returning `none`) makes the whole rule non-matching. -/
def Rule.evaluate (r : Rule) (f : Facts) : Bool :=
  r.conditions.all (fun c => c f == some true)

/-- Rule 1 "initial_start" (main.py lines 130-144).
Conditions: "phase == 'searching'", "car_x < 300".
Actions: throttle "config.max_speed * 0.7", steering 0.0. -/
def initial_start (cfg : ParkingConfig) : Rule where
  name := "Начало движения"
  priority := .HIGH
  conditions :=
    [fun f => f.phase.map (fun p => p == "searching"),
     fun f => f.car_x.map (fun x => decide (x < 300))]
  throttle := .expr "config.max_speed * 0.7" (fun _ => some (cfg.max_speed * 0.7))
  steering := .lit 0
  reasoning := "Начало движения по дороге"
  emergency := false
  description := "Начальное движение при старте системы"

/-- Rule 2 "emergency_stop" (main.py lines 149-163).
Conditions: "front_sensor < 30", "throttle > 0".
Actions: throttle 0.0, steering 0.0, emergency True. -/
def emergency_stop (_cfg : ParkingConfig) : Rule where
  name := "Экстренная остановка"
  priority := .HIGH
  conditions :=
    [fun f => f.front_sensor.map (fun v => decide (v < 30)),
     fun f => f.throttle.map (fun t => decide (t > 0))]
  throttle := .lit 0
  steering := .lit 0
  reasoning := "Экстренная остановка: препятствие впереди"
  emergency := true
  description := "Остановка при опасном сближении"

/-- Rule 3 "slow_down" (main.py lines 166-180).
Conditions: "front_sensor < 100", "throttle > 0".
Actions: throttle "throttle * 0.5", steering 0.0. -/
def slow_down (_cfg : ParkingConfig) : Rule where
  name := "Замедление"
  priority := .HIGH
  conditions :=
    [fun f => f.front_sensor.map (fun v => decide (v < 100)),
     fun f => f.throttle.map (fun t => decide (t > 0))]
  throttle := .expr "throttle * 0.5" (fun f => f.throttle.map (fun t => t * 0.5))
  steering := .lit 0
  reasoning := "Замедление: препятствие впереди"
  emergency := false
  description := "Замедление при приближении к препятствию"

/-- Rule 4 "straight_search" (main.py lines 185-199).
Conditions: "phase == 'searching'", "selected_spot is None".
Actions: throttle "config.max_speed * 0.7", steering 0.0. -/
def straight_search (cfg : ParkingConfig) : Rule where
  name := "Прямой поиск"
  priority := .MEDIUM
  conditions :=
    [fun f => f.phase.map (fun p => p == "searching"),
     fun f => f.selected_spot.map (fun sp => sp.isNone)]
  throttle := .expr "config.max_speed * 0.7" (fun _ => some (cfg.max_speed * 0.7))
  steering := .lit 0
  reasoning := "Поиск свободного парковочного места"
  emergency := false
  description := "Прямое движение для поиска места"

/-- Rule 5 "center_correction" (main.py lines 202-216).
Conditions: "phase == 'searching'", "abs(left_sensor - right_sensor) > 50".
Actions: throttle "config.max_speed * 0.7",
steering "(right_sensor - left_sensor) * 0.01". -/
def center_correction (cfg : ParkingConfig) : Rule where
  name := "Коррекция центра"
  priority := .MEDIUM
  conditions :=
    [fun f => f.phase.map (fun p => p == "searching"),
     fun f => f.left_sensor.bind fun l => f.right_sensor.map fun r =>
       decide (|l - r| > 50)]
  throttle := .expr "config.max_speed * 0.7" (fun _ => some (cfg.max_speed * 0.7))
  steering := .expr "(right_sensor - left_sensor) * 0.01"
    (fun f => f.right_sensor.bind fun r => f.left_sensor.map fun l =>
      (r - l) * 0.01)
  reasoning := "Коррекция для движения по центру"
  emergency := false
  description := "Коррекция положения на дороге"

/-- Rule 6 "spot_found" (main.py lines 219-233).
Conditions: "phase == 'searching'", "selected_spot is not None",
"car_x < selected_spot.x - 100" (the attribute access raises when the
spot is None; `none` models the exception).
Actions: throttle "config.max_speed * 0.6", steering 0.0. -/
def spot_found (cfg : ParkingConfig) : Rule where
  name := "Место найдено"
  priority := .MEDIUM
  conditions :=
    [fun f => f.phase.map (fun p => p == "searching"),
     fun f => f.selected_spot.map (fun sp => sp.isSome),
     fun f => f.car_x.bind fun x => f.selected_spot.bind fun sp =>
       match sp with
       | some s => some (decide (x < s.x - 100))
       | none => none]
  throttle := .expr "config.max_speed * 0.6" (fun _ => some (cfg.max_speed * 0.6))
  steering := .lit 0
  reasoning := "Найдено место, продолжаем движение"
  emergency := false
  description := "Движение к найденному месту"

/-- Rule 7 "approach_spot" (main.py lines 239-253).
Conditions: "phase == 'approach'", "selected_spot is not None",
"car_x < selected_spot.x + CAR_LENGTH * 1.5".
Actions: throttle "config.max_speed * 0.5",
steering "-(car_y - (selected_spot.y - CAR_WIDTH * 1.5)) * 0.008". -/
def approach_spot (cfg : ParkingConfig) : Rule where
  name := "Подъезд к месту"
  priority := .MEDIUM
  conditions :=
    [fun f => f.phase.map (fun p => p == "approach"),
     fun f => f.selected_spot.map (fun sp => sp.isSome),
     fun f => f.car_x.bind fun x => f.selected_spot.bind fun sp =>
       match sp with
       | some s => some (decide (x < s.x + CAR_LENGTH * 1.5))
       | none => none]
  throttle := .expr "config.max_speed * 0.5" (fun _ => some (cfg.max_speed * 0.5))
  steering := .expr "-(car_y - (selected_spot.y - CAR_WIDTH * 1.5)) * 0.008"
    (fun f => f.car_y.bind fun y => f.selected_spot.bind fun sp =>
      match sp with
      | some s => some (-(y - (s.y - CAR_WIDTH * 1.5)) * 0.008)
      | none => none)
  reasoning := "Подъезд к позиции для парковки"
  emergency := false
  description := "Подъезд к позиции перед парковкой"

/-- Rule 8 "stop_for_maneuver" (main.py lines 257-273).
Conditions: "phase == 'approach'", "selected_spot is not None",
"car_x >= selected_spot.x + CAR_LENGTH * 1.5 - 40",
"car_x <= selected_spot.x + CAR_LENGTH * 1.5 + 40".
Actions: throttle 0.0, steering 0.0. -/
def stop_for_maneuver (_cfg : ParkingConfig) : Rule where
  name := "Остановка для маневра"
  priority := .MEDIUM
  conditions :=
    [fun f => f.phase.map (fun p => p == "approach"),
     fun f => f.selected_spot.map (fun sp => sp.isSome),
     fun f => f.car_x.bind fun x => f.selected_spot.bind fun sp =>
       match sp with
       | some s => some (decide (x ≥ s.x + CAR_LENGTH * 1.5 - 40))
       | none => none,
     fun f => f.car_x.bind fun x => f.selected_spot.bind fun sp =>
       match sp with
       | some s => some (decide (x ≤ s.x + CAR_LENGTH * 1.5 + 40))
       | none => none]
  throttle := .lit 0
  steering := .lit 0
  reasoning := "Позиция достигнута, подготовка к парковке"
  emergency := false
  description := "Остановка на позиции для парковки"

/-- Rule 9 "align_parallel" (main.py lines 278-293).
Conditions: "phase == 'positioning'", "selected_spot is not None",
"abs(car_angle) > 2 or abs(car_y - (selected_spot.y - CAR_WIDTH * 1.5)) > 15"
(the Python `or` short-circuits: when the left disjunct is true the right
operand, and any exception it would raise, is not evaluated).
Actions: throttle "config.max_speed * 0.3",
steering "-car_angle * 0.15 - (car_y - (selected_spot.y - CAR_WIDTH * 1.5)) * 0.01". -/
def align_parallel (cfg : ParkingConfig) : Rule where
  name := "Выравнивание"
  priority := .MEDIUM
  conditions :=
    [fun f => f.phase.map (fun p => p == "positioning"),
     fun f => f.selected_spot.map (fun sp => sp.isSome),
     fun f => f.car_angle.bind fun a =>
       if |a| > 2 then some true
       else f.car_y.bind fun y => f.selected_spot.bind fun sp =>
         match sp with
         | some s => some (decide (|y - (s.y - CAR_WIDTH * 1.5)| > 15))
         | none => none]
  throttle := .expr "config.max_speed * 0.3" (fun _ => some (cfg.max_speed * 0.3))
  steering :=
    .expr "-car_angle * 0.15 - (car_y - (selected_spot.y - CAR_WIDTH * 1.5)) * 0.01"
    (fun f => f.car_angle.bind fun a => f.car_y.bind fun y =>
      f.selected_spot.bind fun sp =>
      match sp with
      | some s => some (-a * 0.15 - (y - (s.y - CAR_WIDTH * 1.5)) * 0.01)
      | none => none)
  reasoning := "Выравнивание параллельно парковке"
  emergency := false
  description := "Выравнивание автомобиля"

/-- Rule 10 "ready_for_reverse" (main.py lines 296-313).
Conditions: "phase == 'positioning'", "selected_spot is not None",
"abs(car_angle) < 3", "abs(car_y - (selected_spot.y - CAR_WIDTH * 1.5)) < 15",
"front_right_sensor < 120".  Actions: throttle 0.0, steering 0.0. -/
def ready_for_reverse (_cfg : ParkingConfig) : Rule where
  name := "Готовность к реверсу"
  priority := .MEDIUM
  conditions :=
    [fun f => f.phase.map (fun p => p == "positioning"),
     fun f => f.selected_spot.map (fun sp => sp.isSome),
     fun f => f.car_angle.map (fun a => decide (|a| < 3)),
     fun f => f.car_y.bind fun y => f.selected_spot.bind fun sp =>
       match sp with
       | some s => some (decide (|y - (s.y - CAR_WIDTH * 1.5)| < 15))
       | none => none,
     fun f => f.front_right_sensor.map (fun v => decide (v < 120))]
  throttle := .lit 0
  steering := .lit 0
  reasoning := "Готовность к заднему маневру"
  emergency := false
  description := "Автомобиль готов к заднему маневру"

/-- Rule 11 "start_reverse" (main.py lines 318-332).
Conditions: "phase == 'reverse_right'", "car_angle > -35".
Actions: throttle "-config.max_reverse_speed * 0.3", steering "20"
(the string "20" contains no operator character, so infer returns it
unevaluated). -/
def start_reverse (cfg : ParkingConfig) : Rule where
  name := "Начало заднего маневра"
  priority := .HIGH
  conditions :=
    [fun f => f.phase.map (fun p => p == "reverse_right"),
     fun f => f.car_angle.map (fun a => decide (a > -35))]
  throttle := .expr "-config.max_reverse_speed * 0.3"
    (fun _ => some (-cfg.max_reverse_speed * 0.3))
  steering := .raw "20"
  reasoning := "Задний маневр с поворотом"
  emergency := false
  description := "Начало заднего маневра"

/-- Rule 12 "transition_to_align" (main.py lines 335-349).
Conditions: "phase == 'reverse_right'", "car_angle <= -30".
Actions: throttle "-config.max_reverse_speed * 0.2", steering "0". -/
def transition_to_align (cfg : ParkingConfig) : Rule where
  name := "Переход к выравниванию"
  priority := .HIGH
  conditions :=
    [fun f => f.phase.map (fun p => p == "reverse_right"),
     fun f => f.car_angle.map (fun a => decide (a ≤ -30))]
  throttle := .expr "-config.max_reverse_speed * 0.2"
    (fun _ => some (-cfg.max_reverse_speed * 0.2))
  steering := .raw "0"
  reasoning := "Переход к выравниванию"
  emergency := false
  description := "Переход к фазе выравнивания"

/-- Rule 13 "reverse_align" (main.py lines 352-366).
Conditions: "phase == 'reverse_left'", "abs(car_angle) > 3".
Actions: throttle "-config.max_reverse_speed * 0.25",
steering "-12 - car_angle * 0.1". -/
def reverse_align (cfg : ParkingConfig) : Rule where
  name := "Выравнивание задним ходом"
  priority := .MEDIUM
  conditions :=
    [fun f => f.phase.map (fun p => p == "reverse_left"),
     fun f => f.car_angle.map (fun a => decide (|a| > 3))]
  throttle := .expr "-config.max_reverse_speed * 0.25"
    (fun _ => some (-cfg.max_reverse_speed * 0.25))
  steering := .expr "-12 - car_angle * 0.1"
    (fun f => f.car_angle.map (fun a => -12 - a * 0.1))
  reasoning := "Выравнивание задним ходом"
  emergency := false
  description := "Выравнивание автомобиля"

/-- Rule 14 "default_stop" (main.py lines 371-382).
Condition: "phase != 'parked'".  Actions: throttle 0.0, steering 0.0. -/
def default_stop (_cfg : ParkingConfig) : Rule where
  name := "Остановка по умолчанию"
  priority := .LOW
  conditions := [fun f => f.phase.map (fun p => p != "parked")]
  throttle := .lit 0
  steering := .lit 0
  reasoning := "Ожидание команд"
  emergency := false
  description := "Правило по умолчанию"

/-- Rule 15 "parking_complete" (main.py lines 385-396).
Condition: "phase == 'parked'".  Actions: throttle 0.0, steering 0.0. -/
def parking_complete (_cfg : ParkingConfig) : Rule where
  name := "Парковка завершена"
  priority := .MEDIUM
  conditions := [fun f => f.phase.map (fun p => p == "parked")]
  throttle := .lit 0
  steering := .lit 0
  reasoning := "Парковка успешно завершена!"
  emergency := false
  description := "Завершение парковки"

/-- KnowledgeBase._build_rules (main.py lines 123-398): the rule table as
an association list in dictionary insertion order, which is the
declaration order of the rules in the source. -/
def buildRules (cfg : ParkingConfig) : List (String × Rule) :=
  [("initial_start", initial_start cfg),
   ("emergency_stop", emergency_stop cfg),
   ("slow_down", slow_down cfg),
   ("straight_search", straight_search cfg),
   ("center_correction", center_correction cfg),
   ("spot_found", spot_found cfg),
   ("approach_spot", approach_spot cfg),
   ("stop_for_maneuver", stop_for_maneuver cfg),
   ("align_parallel", align_parallel cfg),
   ("ready_for_reverse", ready_for_reverse cfg),
   ("start_reverse", start_reverse cfg),
   ("transition_to_align", transition_to_align cfg),
   ("reverse_align", reverse_align cfg),
   ("default_stop", default_stop cfg),
   ("parking_complete", parking_complete cfg)]

/-- Insertion step of a stable descending sort by priority value: the new
element goes after every already-placed element of greater or equal
priority.  Models the stability contract of Python's
`sorted(..., key=lambda r: r.priority.value, reverse=True)`
(KnowledgeBase.infer lines 427-429): elements with equal keys keep their
original relative order. -/
def insertByPriority (p : String × Rule) :
    List (String × Rule) → List (String × Rule)
  | [] => [p]
  | q :: qs =>
    if p.2.priority.value ≤ q.2.priority.value then q :: insertByPriority p qs
    else p :: q :: qs

/-- Stable sort by priority descending: elements are inserted left to
right, so equal priorities keep declaration order. -/
def sortByPriority (l : List (String × Rule)) : List (String × Rule) :=
  l.foldl (fun acc p => insertByPriority p acc) []

/-- The priority-sorted rule sequence that KnowledgeBase.infer iterates
(main.py lines 427-429). -/
def sortedRules (cfg : ParkingConfig) : List (String × Rule) :=
  sortByPriority (buildRules cfg)

/-- KnowledgeBase.infer lines 418-424: missing throttle/steering/emergency
facts are filled with 0.0 / 0.0 / False before any rule is evaluated
(existing values are kept).  The config and the CAR_LENGTH/CAR_WIDTH
constants added on lines 414-416 are carried as parameters/constants of
the embedding. -/
def addDefaults (f : Facts) : Facts :=
  { f with
    throttle := some (f.throttle.getD 0)
    steering := some (f.steering.getD 0)
    emergency := some (f.emergency.getD false) }

/-- Evaluation of one actions-dictionary entry by KnowledgeBase.infer
(lines 439-455): numeric entries and operator-free strings are returned
as they are; an operator-containing string is sent to eval, and if eval
raises, the entry is left as the unevaluated string. -/
def evalTemplate : ActionTemplate → Facts → AVal
  | .lit x, _ => .num x
  | .raw s, _ => .str s
  | .expr s g, f =>
    match g f with
    | some v => .num v
    | none => .str s

/-- The dictionary returned by KnowledgeBase.infer (TypedDict DecisionInfo,
main.py lines 105-111, plus rule_description added on line 458).
`rule_applied` is the rule's display name, exactly as the source stores it
(line 457); `rule_key` additionally records the table key of the selected
rule (the identifier under which _build_rules registered it), for
provenance in the theorems; for the fallback decision both are "none". -/
structure DecisionInfo where
  throttle : AVal
  steering : AVal
  reasoning : String
  emergency : Bool
  rule_applied : String
  rule_key : String
  rule_description : String
deriving DecidableEq

/-- KnowledgeBase.infer (main.py lines 411-470).  Returns the decision
dictionary together with the facts dictionary as mutated by the call
(the self.facts defaults written on lines 419-424).  The first rule of
the priority-sorted sequence whose evaluate succeeds supplies the
actions; if none matches, the neutral fallback of lines 463-470 is
returned. -/
def infer (cfg : ParkingConfig) (facts : Facts) : DecisionInfo × Facts :=
  let f := addDefaults facts
  match (sortedRules cfg).find? (fun p => p.2.evaluate f) with
  | some (k, r) =>
    ({ throttle := evalTemplate r.throttle f
       steering := evalTemplate r.steering f
       reasoning := r.reasoning
       emergency := r.emergency
       rule_applied := r.name
       rule_key := k
       rule_description := r.description }, f)
  | none =>
    ({ throttle := .num 0
       steering := .num 0
       reasoning := "Ожидание..."
       emergency := false
       rule_applied := "none"
       rule_key := "none"
       rule_description := "Правило не найдено" }, f)

/-- The facts written by ExpertSystem.make_decision (lines 487-503) into
KnowledgeBase.update_facts (lines 400-402): dict.update keeps every key
not listed here (in particular throttle/steering/emergency).  The sensor
list indices follow lines 495-502.  The derived distance_to_spot fact
(lines 405-409) is read by no rule and is not tracked. -/
def updateFacts (f : Facts) (phase : ParkingPhase) (sensors : Fin 8 → ℚ)
    (car_pos : ℚ × ℚ) (car_angle : ℚ) (target_spot : Option ParkingSpot) :
    Facts :=
  { f with
    phase := some phase.value
    car_x := some car_pos.1
    car_y := some car_pos.2
    car_angle := some car_angle
    selected_spot := some target_spot
    front_left_sensor := some (sensors 2)
    front_sensor := some (sensors 3)
    front_right_sensor := some (sensors 4)
    left_sensor := some (sensors 1)
    right_sensor := some (sensors 5)
    rear_left_sensor := some (sensors 0)
    rear_right_sensor := some (sensors 6)
    rear_sensor := some (sensors 7) }

/-- ExpertSystem.make_decision (main.py lines 481-521): update the
knowledge-base facts, run infer, and return the decision together with
the knowledge base's persistent facts dictionary after the call.  The
append to decision_history (lines 512-519) is a pure observational side
effect and is not modelled.  A fresh ExpertSystem starts with facts = {}
(KnowledgeBase.__init__ line 120), i.e. the record with every field
`none`. -/
def make_decision (cfg : ParkingConfig) (kbFacts : Facts)
    (phase : ParkingPhase) (sensors : Fin 8 → ℚ) (car_pos : ℚ × ℚ)
    (car_angle : ℚ) (target_spot : Option ParkingSpot) :
    DecisionInfo × Facts :=
  infer cfg (updateFacts kbFacts phase sensors car_pos car_angle target_spot)

/-- The part of the ParkingSimulation state read and written by the phase
state machine (handle_phase_transitions and manual_phase_transition). -/
structure SimState where
  current_phase : ParkingPhase
  phase_timer : ℚ
  car_x : ℚ
  car_angle : ℚ
  selected_spot : Option ParkingSpot
  parked : Bool
deriving DecidableEq

/-- ParkingSimulation.handle_phase_transitions (main.py lines 834-880),
an if/elif chain on the current phase.  `none` models the uncaught
AttributeError raised in the APPROACH branch (line 845) when
selected_spot is None: that branch dereferences the spot unconditionally,
unlike the SEARCHING branch whose `if self.selected_spot and ...`
short-circuits.  Note that the FINAL_ADJUST -> PARKED branch (lines
874-877) does not reset phase_timer. -/
def handle_phase_transitions (st : SimState) : Option SimState :=
  match st.current_phase with
  | .SEARCHING =>
    match st.selected_spot with
    | some sp =>
      if st.car_x > sp.x - 50 then
        some { st with current_phase := .APPROACH, phase_timer := 0 }
      else some st
    | none => some st
  | .APPROACH =>
    match st.selected_spot with
    | some sp =>
      if st.car_x > sp.x + CAR_LENGTH * 1.2 then
        some { st with current_phase := .POSITIONING, phase_timer := 0 }
      else some st
    | none => none
  | .POSITIONING =>
    if st.phase_timer > 3 then
      some { st with current_phase := .PREPARE_REVERSE, phase_timer := 0 }
    else some st
  | .PREPARE_REVERSE =>
    if st.phase_timer > 0.5 then
      some { st with current_phase := .REVERSE_RIGHT, phase_timer := 0 }
    else some st
  | .REVERSE_RIGHT =>
    if st.car_angle < -25 then
      some { st with current_phase := .REVERSE_LEFT, phase_timer := 0 }
    else some st
  | .REVERSE_LEFT =>
    if |st.car_angle| < 5 ∨ st.phase_timer > 4 then
      some { st with current_phase := .FINAL_ADJUST, phase_timer := 0 }
    else some st
  | .FINAL_ADJUST =>
    if st.phase_timer > 3 then
      some { st with current_phase := .PARKED, parked := true }
    else some st
  | .PARKED => some st
  | .ABORTED => some st

/-- Position of a phase in list(ParkingPhase) (declaration order). -/
def ParkingPhase.index : ParkingPhase → ℕ
  | .SEARCHING => 0
  | .APPROACH => 1
  | .POSITIONING => 2
  | .PREPARE_REVERSE => 3
  | .REVERSE_RIGHT => 4
  | .REVERSE_LEFT => 5
  | .FINAL_ADJUST => 6
  | .PARKED => 7
  | .ABORTED => 8

/-- list(ParkingPhase)[n] for n < 9; the manual transition only ever
indexes with n % 8 < 8. -/
def phaseOfIndex : ℕ → ParkingPhase
  | 0 => .SEARCHING
  | 1 => .APPROACH
  | 2 => .POSITIONING
  | 3 => .PREPARE_REVERSE
  | 4 => .REVERSE_RIGHT
  | 5 => .REVERSE_LEFT
  | 6 => .FINAL_ADJUST
  | 7 => .PARKED
  | _ => .ABORTED

/-- ParkingSimulation.manual_phase_transition (main.py lines 882-890):
next_index = (current_index + 1) % (len(phases) - 1) = (i + 1) % 8, and
the phase timer is set to 0. -/
def manual_phase_transition (st : SimState) : SimState :=
  { st with
    current_phase := phaseOfIndex ((st.current_phase.index + 1) % 8)
    phase_timer := 0 }

/-- The speed-related state of class Car (main.py lines 524-537): speed is
the commanded throttle that the control loop assigned before calling
Car.update (run, lines 810-815); previous_speed is the speed at the end
of the previous tick; acceleration = 0.01 and deceleration = 0.02 are set
in __init__ and never changed. -/
structure CarMotion where
  speed : ℚ
  previous_speed : ℚ
  acceleration : ℚ := 0.01
  deceleration : ℚ := 0.02
deriving DecidableEq

/-- The speed rate limiter of Car.update (main.py lines 539-558): the
commanded speed is clamped so that it differs from previous_speed by at
most acceleration*dt*60 when the commanded magnitude grows, and by at
most deceleration*dt*60 otherwise; previous_speed then becomes the new
speed.  (The pose integration of lines 560-574 uses trigonometry and is
modelled separately with the sensor geometry; it does not feed back into
the speed computation within one call.) -/
def CarMotion.update (c : CarMotion) (dt : ℚ) : CarMotion :=
  let speed_diff := c.speed - c.previous_speed
  let newSpeed :=
    if speed_diff ≠ 0 then
      let is_accelerating := |c.speed| > |c.previous_speed|
      let max_change :=
        if is_accelerating then c.acceleration * dt * 60
        else c.deceleration * dt * 60
      if |speed_diff| > max_change then
        if speed_diff > 0 then c.previous_speed + max_change
        else c.previous_speed - max_change
      else c.speed
    else c.speed
  { c with speed := newSpeed, previous_speed := newSpeed }

/-- The pose part of class Car (x, y, angle in degrees), the only fields
read by Car.get_corners and Car.update_sensors.  The geometry works with
real numbers because it uses cos/sin/sqrt. -/
structure CarPose where
  x : ℝ
  y : ℝ
  angle : ℝ

/-- Car.get_corners (main.py lines 576-584): the four body corners,
rotated by the heading and translated to the car position.
CAR_LENGTH = 80 and CAR_WIDTH = 40. -/
noncomputable def CarPose.get_corners (car : CarPose) : List (ℝ × ℝ) :=
  let c := Real.cos (car.angle * Real.pi / 180)
  let s := Real.sin (car.angle * Real.pi / 180)
  [((-80 : ℝ) / 2, (-40 : ℝ) / 2), ((80 : ℝ) / 2, (-40 : ℝ) / 2),
   ((80 : ℝ) / 2, (40 : ℝ) / 2), ((-80 : ℝ) / 2, (40 : ℝ) / 2)].map
    (fun q => (car.x + q.1 * c - q.2 * s, car.y + q.1 * s + q.2 * c))

/-- The fixed sensor offsets sensor_angles = [-135, -90, -45, -20, 20, 45,
90, 135] of Car.update_sensors (main.py line 612), indexed by ray. -/
def sensorAngle (i : Fin 8) : ℝ :=
  [(-135 : ℝ), -90, -45, -20, 20, 45, 90, 135].getD i 0

/-- The world angle of ray i: math.radians(self.angle + da)
(main.py line 615). -/
noncomputable def rayAngle (car : CarPose) (i : Fin 8) : ℝ :=
  (car.angle + sensorAngle i) * Real.pi / 180

/-- The projection px*dx + py*dy of a corner (relative to the vehicle
origin) onto the unit direction of ray i (main.py lines 616-621). -/
noncomputable def rayProj (car : CarPose) (i : Fin 8) (corner : ℝ × ℝ) : ℝ :=
  (corner.1 - car.x) * Real.cos (rayAngle car i) +
    (corner.2 - car.y) * Real.sin (rayAngle car i)

/-- math.hypot(px, py): the Euclidean distance from the vehicle origin to
a corner (main.py line 624). -/
noncomputable def rayDist (car : CarPose) (corner : ℝ × ℝ) : ℝ :=
  Real.sqrt ((corner.1 - car.x) ^ 2 + (corner.2 - car.y) ^ 2)

/-- The body of the corner loop of Car.update_sensors (main.py lines
619-626): a corner with positive projection onto the ray replaces the
accumulated reading when its distance is smaller. -/
noncomputable def sensorStep (car : CarPose) (i : Fin 8) (acc : ℝ)
    (corner : ℝ × ℝ) : ℝ :=
  if 0 < rayProj car i corner then
    if rayDist car corner < acc then rayDist car corner else acc
  else acc

/-- Car.update_sensors (main.py lines 609-628): every ray starts at
SENSOR_RANGE = 400 and is folded over the corners of every obstacle. -/
noncomputable def update_sensors (car : CarPose) (obstacles : List CarPose) :
    Fin 8 → ℝ :=
  fun i =>
    obstacles.foldl
      (fun acc obs => obs.get_corners.foldl (sensorStep car i) acc) 400

/-- The default fact set of the totality claim: phase = p, all eight
sensors at SENSOR_RANGE, a present selected_spot fact whose value is
None, previous throttle/steering 0, no pose facts. -/
def defaultFacts (p : ParkingPhase) : Facts :=
  { phase := some p.value
    front_left_sensor := some SENSOR_RANGE
    front_sensor := some SENSOR_RANGE
    front_right_sensor := some SENSOR_RANGE
    left_sensor := some SENSOR_RANGE
    right_sensor := some SENSOR_RANGE
    rear_left_sensor := some SENSOR_RANGE
    rear_right_sensor := some SENSOR_RANGE
    rear_sensor := some SENSOR_RANGE
    selected_spot := some none
    throttle := some 0
    steering := some 0 }

/-- The documented transition table of the phase state machine, written
from the specification's words, as amended: one conditional transition
per phase (SEARCHING, APPROACH, POSITIONING, PREPARE_REVERSE,
REVERSE_RIGHT, REVERSE_LEFT, FINAL_ADJUST in order, PARKED and ABORTED
terminal), the timer resetting to zero on every transition except
FINAL_ADJUST -> PARKED, which leaves the timer unchanged and raises the
parked flag.  The SEARCHING row requires a selected spot; the APPROACH
row presupposes one (its no-spot case here is never compared against the
code, which raises there). -/
def phaseStepSpec (st : SimState) : SimState :=
  match st.current_phase with
  | .SEARCHING =>
    match st.selected_spot with
    | some sp =>
      if st.car_x > sp.x - 50 then
        { st with current_phase := .APPROACH, phase_timer := 0 }
      else st
    | none => st
  | .APPROACH =>
    match st.selected_spot with
    | some sp =>
      if st.car_x > sp.x + CAR_LENGTH * 1.2 then
        { st with current_phase := .POSITIONING, phase_timer := 0 }
      else st
    | none => st
  | .POSITIONING =>
    if st.phase_timer > 3 then
      { st with current_phase := .PREPARE_REVERSE, phase_timer := 0 }
    else st
  | .PREPARE_REVERSE =>
    if st.phase_timer > 0.5 then
      { st with current_phase := .REVERSE_RIGHT, phase_timer := 0 }
    else st
  | .REVERSE_RIGHT =>
    if st.car_angle < -25 then
      { st with current_phase := .REVERSE_LEFT, phase_timer := 0 }
    else st
  | .REVERSE_LEFT =>
    if |st.car_angle| < 5 ∨ st.phase_timer > 4 then
      { st with current_phase := .FINAL_ADJUST, phase_timer := 0 }
    else st
  | .FINAL_ADJUST =>
    if st.phase_timer > 3 then
      { st with current_phase := .PARKED, parked := true }
    else st
  | .PARKED => st
  | .ABORTED => st

/-- A fact set with a matching HIGH-priority rule (initial_start):
phase searching, car_x = 100. -/
def factsC1 : Facts := { phase := some "searching", car_x := some 100 }

/-- Tick 1 of the two-tick run exhibiting the stale throttle fact: a
fresh ExpertSystem (facts = {}), phase SEARCHING, all sensors at range,
position (200, 500), angle 0, no spot. -/
def c4_tick1 : DecisionInfo × Facts :=
  make_decision defaultConfig {} .SEARCHING (fun _ => 400) (200, 500) 0 none

/-- Tick 2 of the same run: the knowledge base keeps the facts of tick 1;
the car has moved slightly. -/
def c4_tick2 : DecisionInfo × Facts :=
  make_decision defaultConfig c4_tick1.2 .SEARCHING (fun _ => 400) (210, 500) 0 none

/-- A FINAL_ADJUST state whose timer 3.5 exceeds the 3.0s threshold. -/
def stC5cx : SimState :=
  { current_phase := .FINAL_ADJUST, phase_timer := 7/2, car_x := 0,
    car_angle := 0, selected_spot := none, parked := false }

/-- A POSITIONING state used to instantiate the amended transition
theorem. -/
def stC5w : SimState :=
  { current_phase := .POSITIONING, phase_timer := 7/2, car_x := 0,
    car_angle := 0, selected_spot := none, parked := false }

/-- A car commanded from standstill to speed 2. -/
def carC7 : CarMotion := { speed := 2, previous_speed := 0 }

/-- A fact set that selects approach_spot (phase approach, spot at
x = 600 with the car at x = 500) while car_y, which the steering action
template of that rule reads, is absent: the action eval fails. -/
def factsC8 : Facts :=
  { phase := some "approach", car_x := some 500,
    selected_spot := some (some { x := 600, y := 500 }) }

/-- The fact set of the emergency scenario: phase searching, front sensor
at 20, prior-tick throttle fact t, every other fact absent. -/
def factsC10 (t : ℚ) : Facts :=
  { phase := some "searching", front_sensor := some 20, throttle := some t }

/-- The priority-sorted rule sequence, computed: the five HIGH rules in
declaration order, then the nine MEDIUM rules in declaration order, then
the single LOW rule (default_stop) last. -/
theorem sortedRules_eq (cfg : ParkingConfig) :
    sortedRules cfg =
      [("initial_start", initial_start cfg),
       ("emergency_stop", emergency_stop cfg),
       ("slow_down", slow_down cfg),
       ("start_reverse", start_reverse cfg),
       ("transition_to_align", transition_to_align cfg),
       ("straight_search", straight_search cfg),
       ("center_correction", center_correction cfg),
       ("spot_found", spot_found cfg),
       ("approach_spot", approach_spot cfg),
       ("stop_for_maneuver", stop_for_maneuver cfg),
       ("align_parallel", align_parallel cfg),
       ("ready_for_reverse", ready_for_reverse cfg),
       ("reverse_align", reverse_align cfg),
       ("parking_complete", parking_complete cfg),
       ("default_stop", default_stop cfg)] := by
  simp [sortedRules, buildRules, sortByPriority, List.foldl_cons, List.foldl_nil,
    insertByPriority, initial_start, emergency_stop, slow_down, straight_search,
    center_correction, spot_found, approach_spot, stop_for_maneuver, align_parallel,
    ready_for_reverse, start_reverse, transition_to_align, reverse_align, default_stop,
    parking_complete, RulePriority.value]

/-- C2: totality.  On the default fact set for any phase p, the default
rule default_stop matches exactly when p is not PARKED, the completion
rule parking_complete matches exactly when p is PARKED, some rule of the
table always matches, and the rule selected by infer is a real table rule
(straight_search for SEARCHING, parking_complete for PARKED, default_stop
for every other phase), never the "none" fallback: the no-rule-matched
branch of KnowledgeBase.infer is unreachable on these fact sets. -/
theorem c2_totality (p : ParkingPhase) :
    (default_stop defaultConfig).evaluate (addDefaults (defaultFacts p)) =
      decide (p ≠ ParkingPhase.PARKED) ∧
    (parking_complete defaultConfig).evaluate (addDefaults (defaultFacts p)) =
      decide (p = ParkingPhase.PARKED) ∧
    (buildRules defaultConfig).any
      (fun q => q.2.evaluate (addDefaults (defaultFacts p))) = true ∧
    (infer defaultConfig (defaultFacts p)).1.rule_key =
      (if p = ParkingPhase.PARKED then "parking_complete"
       else if p = ParkingPhase.SEARCHING then "straight_search"
       else "default_stop") ∧
    ((infer defaultConfig (defaultFacts p)).1.rule_key == "none") = false := by
  cases p <;> decide

/-- C9: when no rule of the table matches the fact set, infer returns,
without raising, the neutral fallback decision of lines 463-470: throttle
0, steering 0, the waiting message "Ожидание..." as reasoning, emergency
False and rule id "none". -/
theorem c9_no_rule_fallback (cfg : ParkingConfig) (facts : Facts)
    (h : ∀ p ∈ sortedRules cfg, p.2.evaluate (addDefaults facts) = false) :
    (infer cfg facts).1 =
      { throttle := .num 0
        steering := .num 0
        reasoning := "Ожидание..."
        emergency := false
        rule_applied := "none"
        rule_key := "none"
        rule_description := "Правило не найдено" } := by
  have hf : (sortedRules cfg).find?
      (fun p => p.2.evaluate (addDefaults facts)) = none :=
    List.find?_eq_none.mpr (fun x hx => by simp [h x hx])
  simp [infer, hf]

/-- C9 witness: on the empty fact store every rule has a condition that
cannot evaluate (each rule reads at least one absent fact), so the
fallback decision is returned. -/
theorem c9_witness :
    (infer defaultConfig {}).1 =
      { throttle := .num 0
        steering := .num 0
        reasoning := "Ожидание..."
        emergency := false
        rule_applied := "none"
        rule_key := "none"
        rule_description := "Правило не найдено" } :=
  c9_no_rule_fallback defaultConfig {} (by decide)

/-- C10: for the fact set {phase searching, front_sensor 20, prior-tick
throttle t > 0} the engine decides throttle 0, steering 0, emergency
True, and the selected table rule is emergency_stop (whose display name
the decision carries as rule_applied). -/
theorem c10_emergency_scenario (cfg : ParkingConfig) (t : ℚ) (h : 0 < t) :
    (infer cfg (factsC10 t)).1.throttle = AVal.num 0 ∧
    (infer cfg (factsC10 t)).1.steering = AVal.num 0 ∧
    (infer cfg (factsC10 t)).1.emergency = true ∧
    (infer cfg (factsC10 t)).1.rule_key = "emergency_stop" := by
  have h1 : ((initial_start cfg).evaluate (addDefaults (factsC10 t))) = false := by
    simp [Rule.evaluate, initial_start, addDefaults, factsC10]
  have h2 : ((emergency_stop cfg).evaluate (addDefaults (factsC10 t))) = true := by
    simp [Rule.evaluate, emergency_stop, addDefaults, factsC10, h]
    norm_num
  have hfind : (sortedRules cfg).find?
      (fun p => p.2.evaluate (addDefaults (factsC10 t)))
      = some ("emergency_stop", emergency_stop cfg) := by
    rw [sortedRules_eq,
      @List.find?_cons_of_neg _ (fun q => q.2.evaluate (addDefaults (factsC10 t)))
        ("initial_start", initial_start cfg) _ (by simp [h1]),
      @List.find?_cons_of_pos _ (fun q => q.2.evaluate (addDefaults (factsC10 t)))
        ("emergency_stop", emergency_stop cfg) _ h2]
  refine ⟨?_, ?_, ?_, ?_⟩ <;> simp [infer, hfind, evalTemplate, emergency_stop]

/-- C10 witness at throttle fact 1. -/
theorem c10_witness :
    (0 : ℚ) < 1 ∧
      (infer defaultConfig (factsC10 1)).1.rule_key = "emergency_stop" :=
  ⟨by norm_num, (c10_emergency_scenario defaultConfig 1 (by norm_num)).2.2.2⟩

/-- C1: rule selection order.  First, the sequence that infer iterates is
exactly the declaration-order table stably re-ordered by priority
descending: all HIGH rules in declaration order, then all MEDIUM rules in
declaration order, then all LOW rules.  Second, whenever some
HIGH-priority rule of the table matches the (default-completed) facts,
the rule that infer selects is a HIGH-priority rule of the table,
regardless of where lower-priority matching rules were declared. -/
theorem c1_rule_priority_order (cfg : ParkingConfig) (facts : Facts) :
    sortedRules cfg =
      (buildRules cfg).filter (fun q => q.2.priority == RulePriority.HIGH) ++
      (buildRules cfg).filter (fun q => q.2.priority == RulePriority.MEDIUM) ++
      (buildRules cfg).filter (fun q => q.2.priority == RulePriority.LOW) ∧
    ((∃ p ∈ buildRules cfg, p.2.priority = RulePriority.HIGH ∧
        p.2.evaluate (addDefaults facts) = true) →
      ∃ p ∈ buildRules cfg, p.2.priority = RulePriority.HIGH ∧
        p.2.evaluate (addDefaults facts) = true ∧
        (infer cfg facts).1.rule_key = p.1 ∧
        (infer cfg facts).1.rule_applied = p.2.name) := by
  have hfilter : sortedRules cfg =
      (buildRules cfg).filter (fun q => q.2.priority == RulePriority.HIGH) ++
      (buildRules cfg).filter (fun q => q.2.priority == RulePriority.MEDIUM) ++
      (buildRules cfg).filter (fun q => q.2.priority == RulePriority.LOW) := by
    rw [sortedRules_eq]
    simp [buildRules, initial_start, emergency_stop, slow_down, straight_search,
      center_correction, spot_found, approach_spot, stop_for_maneuver, align_parallel,
      ready_for_reverse, start_reverse, transition_to_align, reverse_align, default_stop,
      parking_complete]
  refine ⟨hfilter, ?_⟩
  rintro ⟨p, hp, hH, hE⟩
  have hmem : p ∈ (buildRules cfg).filter
      (fun q => q.2.priority == RulePriority.HIGH) :=
    List.mem_filter.mpr ⟨hp, by simp [hH]⟩
  have hsome : (((buildRules cfg).filter
      (fun q => q.2.priority == RulePriority.HIGH)).find?
      (fun q => q.2.evaluate (addDefaults facts))).isSome := by
    rw [List.find?_isSome]
    exact ⟨p, hmem, hE⟩
  obtain ⟨a, ha⟩ := Option.isSome_iff_exists.mp hsome
  have hfind : (sortedRules cfg).find?
      (fun q => q.2.evaluate (addDefaults facts)) = some a := by
    rw [hfilter, List.append_assoc, List.find?_append, ha]
    rfl
  have haMem := List.mem_of_find?_eq_some ha
  have haH : a.2.priority = RulePriority.HIGH := by
    have := (List.mem_filter.mp haMem).2
    simpa using this
  have haB : a ∈ buildRules cfg := (List.mem_filter.mp haMem).1
  have haE : a.2.evaluate (addDefaults facts) = true :=
    @List.find?_some _ (fun q => q.2.evaluate (addDefaults facts)) a _ ha
  exact ⟨a, haB, haH, haE, by simp [infer, hfind], by simp [infer, hfind]⟩

/-- C1 witness: on {phase searching, car_x 100} the HIGH rule
initial_start matches, and the selected rule is indeed a HIGH rule of
the table. -/
theorem c1_witness :
    ∃ p ∈ buildRules defaultConfig, p.2.priority = RulePriority.HIGH ∧
      p.2.evaluate (addDefaults factsC1) = true ∧
      (infer defaultConfig factsC1).1.rule_key = p.1 ∧
      (infer defaultConfig factsC1).1.rule_applied = p.2.name :=
  (c1_rule_priority_order defaultConfig factsC1).2
    ⟨("initial_start", initial_start defaultConfig),
      List.mem_cons_self _ _, rfl, by decide⟩

/-- C3: a rule whose condition list contains a condition that raises
(references an absent fact, or compares through an absent optional,
modelled by the condition returning `none`) evaluates as non-matching:
Rule.evaluate, which catches every exception of the condition loop,
returns False instead of propagating the failure. -/
theorem c3_missing_fact_nonfatal (cfg : ParkingConfig) (facts : Facts)
    (p : String × Rule) (_hp : p ∈ buildRules cfg)
    (h : ∃ c ∈ p.2.conditions, c facts = none) :
    p.2.evaluate facts = false := by
  obtain ⟨c, hc, hnone⟩ := h
  unfold Rule.evaluate
  exact List.all_eq_false.mpr ⟨c, hc, by simp [hnone]⟩

/-- C3 witness: initial_start on the empty fact store; its second
condition "car_x < 300" references the absent car_x fact. -/
theorem c3_witness : (initial_start defaultConfig).evaluate {} = false :=
  c3_missing_fact_nonfatal defaultConfig {}
    ("initial_start", initial_start defaultConfig)
    (List.mem_cons_self _ _)
    ⟨(initial_start defaultConfig).conditions.get ⟨1, by decide⟩,
      List.get_mem _ 1 (by decide), rfl⟩

/-- C4 (code bug): the throttle/steering facts never track the previous
tick's decision.  On tick 1 the engine decides throttle 7/4 (rule
initial_start, config.max_speed * 0.7 = 1.75), but the knowledge base's
fact store at tick 2's rule evaluation still carries throttle = 0:
update_facts is never called with the decision outputs and infer only
writes the 0.0 default when the key is absent, so the "prior-tick
throttle" facts that rules such as emergency_stop ("throttle > 0") and
slow_down ("throttle * 0.5") read are always 0 instead of the previous
decision. -/
theorem c4_throttle_fact_stays_zero :
    c4_tick1.1.rule_key = "initial_start" ∧
    c4_tick1.1.throttle = AVal.num (7/4) ∧
    c4_tick2.2.throttle = some 0 ∧
    (c4_tick2.2.throttle == some ((7 : ℚ)/4)) = false := by
  refine ⟨?_, ?_, ?_, ?_⟩ <;>
    simp only [c4_tick1, c4_tick2, make_decision, infer, updateFacts, addDefaults,
      sortedRules_eq, List.find?, Rule.evaluate, evalTemplate, defaultConfig,
      initial_start, emergency_stop, slow_down, start_reverse, transition_to_align,
      straight_search, center_correction, spot_found, approach_spot, stop_for_maneuver,
      align_parallel, ready_for_reverse, reverse_align, default_stop, parking_complete,
      ParkingPhase.value, CAR_LENGTH, CAR_WIDTH, List.all_cons, List.all_nil,
      Option.map_some, Option.map_none, Option.some_bind, Option.none_bind,
      Option.getD_some, Option.getD_none, beq_iff_eq] <;>
    norm_num

/-- C5 counterexample: in FINAL_ADJUST with timer 3.5 the machine takes
the transition to PARKED, but the phase timer stays 3.5 instead of being
reset to zero, refuting "on every transition, automatic or manual, the
phase-elapsed timer is reset to zero". -/
theorem c5_counterexample :
    handle_phase_transitions stC5cx =
      some { current_phase := ParkingPhase.PARKED, phase_timer := 7/2, car_x := 0,
             car_angle := 0, selected_spot := none, parked := true } ∧
    ((7 : ℚ)/2 == 0) = false := by
  constructor
  · simp only [handle_phase_transitions, stC5cx]
    norm_num
  · rw [beq_eq_false_iff_ne]
    norm_num

/-- C5 (amended): on every state whose APPROACH case has a selected spot
(the code dereferences it unconditionally there), the state machine takes
exactly the automatic transition of the documented table, resetting the
timer on every transition except FINAL_ADJUST -> PARKED, which leaves it
unchanged; and every manual transition resets the timer to zero. -/
theorem c5_transitions_amended (st : SimState)
    (h : st.current_phase = ParkingPhase.APPROACH →
      st.selected_spot.isSome = true) :
    handle_phase_transitions st = some (phaseStepSpec st) ∧
    (manual_phase_transition st).phase_timer = 0 := by
  refine ⟨?_, rfl⟩
  obtain ⟨ph, timer, x, ang, spot, pk⟩ := st
  cases ph
  case SEARCHING =>
    cases spot with
    | none => rfl
    | some sp =>
      by_cases hc : x > sp.x - 50 <;>
        simp [handle_phase_transitions, phaseStepSpec, hc]
  case APPROACH =>
    cases spot with
    | none => simp at h
    | some sp =>
      by_cases hc : x > sp.x + CAR_LENGTH * 1.2 <;>
        simp [handle_phase_transitions, phaseStepSpec, hc]
  case POSITIONING =>
    by_cases hc : timer > 3 <;> simp [handle_phase_transitions, phaseStepSpec, hc]
  case PREPARE_REVERSE =>
    by_cases hc : timer > 0.5 <;>
      simp [handle_phase_transitions, phaseStepSpec, hc]
  case REVERSE_RIGHT =>
    by_cases hc : ang < -25 <;> simp [handle_phase_transitions, phaseStepSpec, hc]
  case REVERSE_LEFT =>
    by_cases hc : |ang| < 5 ∨ timer > 4 <;>
      simp [handle_phase_transitions, phaseStepSpec, hc]
  case FINAL_ADJUST =>
    by_cases hc : timer > 3 <;> simp [handle_phase_transitions, phaseStepSpec, hc]
  case PARKED => rfl
  case ABORTED => rfl

/-- C5 witness: a POSITIONING state with timer 3.5 (the hypothesis holds
vacuously), instantiating the amended transition theorem. -/
theorem c5_witness :
    (stC5w.current_phase = ParkingPhase.APPROACH →
      stC5w.selected_spot.isSome = true) ∧
    (handle_phase_transitions stC5w = some (phaseStepSpec stC5w) ∧
      (manual_phase_transition stC5w).phase_timer = 0) :=
  ⟨by decide, c5_transitions_amended stC5w (by decide)⟩

/-- C8 (amended): when the first matching rule's throttle or steering
action template fails to evaluate against the current facts (eval
raises, modelled by the template's evaluation returning `none`), infer
catches the failure and returns the unevaluated template string as that
output — it does not raise, but the output is the template text, not the
previous value of the output. -/
theorem c8_action_failure_amended (cfg : ParkingConfig) (facts : Facts)
    (k : String) (r : Rule)
    (hfind : (sortedRules cfg).find?
      (fun p => p.2.evaluate (addDefaults facts)) = some (k, r)) :
    (∀ s g, r.throttle = ActionTemplate.expr s g →
      g (addDefaults facts) = none →
      (infer cfg facts).1.throttle = AVal.str s) ∧
    (∀ s g, r.steering = ActionTemplate.expr s g →
      g (addDefaults facts) = none →
      (infer cfg facts).1.steering = AVal.str s) := by
  constructor <;> intro s g hT hN <;> simp [infer, hfind, hT, evalTemplate, hN]

/-- C8 counterexample: on factsC8 the selected rule is approach_spot,
whose steering template needs the absent car_y fact; the decision's
steering output is the unevaluated template string, not the previous
steering value 0 held in the fact store — refuting "leaves the
corresponding output at its previous value". -/
theorem c8_counterexample :
    (infer defaultConfig factsC8).1.steering =
      AVal.str "-(car_y - (selected_spot.y - CAR_WIDTH * 1.5)) * 0.008" ∧
    ((infer defaultConfig factsC8).1.steering == AVal.num 0) = false ∧
    (addDefaults factsC8).steering = some 0 := by
  have h1 : (infer defaultConfig factsC8).1.steering =
      AVal.str "-(car_y - (selected_spot.y - CAR_WIDTH * 1.5)) * 0.008" := by
    simp only [infer, sortedRules_eq, addDefaults, factsC8, List.find?, Rule.evaluate,
      evalTemplate, initial_start, emergency_stop, slow_down, start_reverse,
      transition_to_align, straight_search, center_correction, spot_found, approach_spot,
      stop_for_maneuver, align_parallel, ready_for_reverse, reverse_align, default_stop,
      parking_complete, ParkingPhase.value, CAR_LENGTH, CAR_WIDTH, List.all_cons,
      List.all_nil, Option.map_some, Option.map_none, Option.some_bind, Option.none_bind,
      Option.getD_some, Option.getD_none]
    norm_num
  refine ⟨h1, ?_, rfl⟩
  rw [h1, beq_eq_false_iff_ne]
  simp

/-- C8 witness: the amended theorem applied at factsC8, where the first
matching rule is approach_spot and its steering template fails. -/
theorem c8_witness :
    (infer defaultConfig factsC8).1.steering =
      AVal.str "-(car_y - (selected_spot.y - CAR_WIDTH * 1.5)) * 0.008" := by
  have hfind : (sortedRules defaultConfig).find?
      (fun q => q.2.evaluate (addDefaults factsC8))
      = some ("approach_spot", approach_spot defaultConfig) := by
    simp only [sortedRules_eq, addDefaults, factsC8, List.find?, Rule.evaluate,
      initial_start, emergency_stop, slow_down, start_reverse,
      transition_to_align, straight_search, center_correction, spot_found, approach_spot,
      stop_for_maneuver, align_parallel, ready_for_reverse, reverse_align, default_stop,
      parking_complete, ParkingPhase.value, CAR_LENGTH, CAR_WIDTH, List.all_cons,
      List.all_nil, Option.map_some, Option.map_none, Option.some_bind, Option.none_bind,
      Option.getD_some, Option.getD_none]
    norm_num
  exact (c8_action_failure_amended defaultConfig factsC8 "approach_spot"
    (approach_spot defaultConfig) hfind).2 _ _ rfl rfl

/-- C7: the speed rate limiter.  For any commanded throttle (held in
c.speed when Car.update runs) and any dt >= 0, with the car's rates
satisfying 0 <= acceleration <= deceleration (the source fixes 0.01 and
0.02), the new speed differs from the previous-tick speed by at most
acceleration*dt*60 when |new speed| > |previous speed| (accelerating) and
by at most deceleration*dt*60 otherwise (decelerating). -/
theorem c7_speed_rate_limit (c : CarMotion) (dt : ℚ) (hdt : 0 ≤ dt)
    (hacc : 0 ≤ c.acceleration) (hle : c.acceleration ≤ c.deceleration) :
    (|(c.update dt).speed| > |c.previous_speed| →
      |(c.update dt).speed - c.previous_speed| ≤ c.acceleration * dt * 60) ∧
    (¬ |(c.update dt).speed| > |c.previous_speed| →
      |(c.update dt).speed - c.previous_speed| ≤ c.deceleration * dt * 60) := by
  set s := c.speed with hs
  set p := c.previous_speed with hp
  have hA0 : 0 ≤ c.acceleration * dt * 60 :=
    mul_nonneg (mul_nonneg hacc hdt) (by norm_num)
  have hAD : c.acceleration * dt * 60 ≤ c.deceleration * dt * 60 :=
    mul_le_mul_of_nonneg_right (mul_le_mul_of_nonneg_right hle hdt) (by norm_num)
  have hD0 : 0 ≤ c.deceleration * dt * 60 := le_trans hA0 hAD
  by_cases h1 : s - p = 0
  · have hn : (c.update dt).speed = s := by
      simp [CarMotion.update, ← hs, ← hp, h1]
    have hsp : s = p := by linarith [sub_eq_zero.mp h1]
    rw [hn, hsp]
    constructor <;> intro _ <;> simp [sub_self] <;>
      [exact mul_nonneg hacc hdt; exact mul_nonneg (le_trans hacc hle) hdt]
  · by_cases hAcc : |s| > |p|
    · by_cases hbig : |s - p| > c.acceleration * dt * 60
      · by_cases hpos : s - p > 0
        · have hn : (c.update dt).speed = p + c.acceleration * dt * 60 := by
            simp [CarMotion.update, ← hs, ← hp, h1, hAcc, hbig, hpos]
          rw [hn]
          have he : p + c.acceleration * dt * 60 - p = c.acceleration * dt * 60 := by ring
          rw [he, abs_of_nonneg hA0]
          exact ⟨fun _ => le_refl _, fun _ => hAD⟩
        · have hn : (c.update dt).speed = p - c.acceleration * dt * 60 := by
            simp [CarMotion.update, ← hs, ← hp, h1, hAcc, hbig, hpos]
          rw [hn]
          have he : p - c.acceleration * dt * 60 - p = -(c.acceleration * dt * 60) := by
            ring
          rw [he, abs_neg, abs_of_nonneg hA0]
          exact ⟨fun _ => le_refl _, fun _ => hAD⟩
      · have hn : (c.update dt).speed = s := by
          simp [CarMotion.update, ← hs, ← hp, h1, hAcc, hbig]
        rw [hn]
        push_neg at hbig
        exact ⟨fun _ => hbig, fun _ => le_trans hbig hAD⟩
    · by_cases hbig : |s - p| > c.deceleration * dt * 60
      · by_cases hpos : s - p > 0
        · have hn : (c.update dt).speed = p + c.deceleration * dt * 60 := by
            simp [CarMotion.update, ← hs, ← hp, h1, hAcc, hbig, hpos]
          rw [hn]
          have he : p + c.deceleration * dt * 60 - p = c.deceleration * dt * 60 := by
            ring
          rw [he, abs_of_nonneg hD0]
          refine ⟨fun hcon => absurd hcon ?_, fun _ => le_refl _⟩
          push_neg at hAcc ⊢
          have h2 : p ≤ p + c.deceleration * dt * 60 := by linarith
          have h3 : p + c.deceleration * dt * 60 ≤ s := by
            have := abs_of_pos hpos
            linarith [hbig, this]
          calc |p + c.deceleration * dt * 60| ≤ |p| ⊔ |s| := abs_le_max_abs_abs h2 h3
            _ ≤ |p| := sup_le le_rfl hAcc
        · have hneg : s - p < 0 := lt_of_le_of_ne (not_lt.mp hpos) h1
          have hn : (c.update dt).speed = p - c.deceleration * dt * 60 := by
            simp [CarMotion.update, ← hs, ← hp, h1, hAcc, hbig, hpos]
          rw [hn]
          have he : p - c.deceleration * dt * 60 - p = -(c.deceleration * dt * 60) := by
            ring
          rw [he, abs_neg, abs_of_nonneg hD0]
          refine ⟨fun hcon => absurd hcon ?_, fun _ => le_refl _⟩
          push_neg at hAcc ⊢
          have habs : |s - p| = -(s - p) := abs_of_neg hneg
          have h2 : s ≤ p - c.deceleration * dt * 60 := by linarith [hbig, habs]
          have h3 : p - c.deceleration * dt * 60 ≤ p := by linarith
          calc |p - c.deceleration * dt * 60| ≤ |s| ⊔ |p| := abs_le_max_abs_abs h2 h3
            _ ≤ |p| := sup_le hAcc le_rfl
      · have hn : (c.update dt).speed = s := by
          simp [CarMotion.update, ← hs, ← hp, h1, hAcc, hbig]
        rw [hn]
        push_neg at hbig
        exact ⟨fun hcon => absurd hcon hAcc, fun _ => hbig⟩

/-- C7 witness: from standstill commanded to speed 2 with dt = 1/60 the
change is clamped to exactly acceleration*dt*60. -/
theorem c7_witness :
    (0:ℚ) ≤ 1/60 ∧
    |(carC7.update (1/60)).speed - carC7.previous_speed| ≤
      carC7.acceleration * (1/60) * 60 := by
  refine ⟨by norm_num, ?_⟩
  apply (c7_speed_rate_limit carC7 (1/60) (by norm_num) (by norm_num [carC7])
    (by norm_num [carC7])).1
  norm_num [CarMotion.update, carC7]

/-- The corner loop of update_sensors, over one corner list: the
accumulated reading never grows, and the result is either the initial
accumulator or the distance of some positively-projecting corner, and is
a lower bound of every positively-projecting corner's distance. -/
theorem sensor_foldl_corners (car : CarPose) (i : Fin 8) (l : List (ℝ × ℝ))
    (a : ℝ) :
    l.foldl (sensorStep car i) a ≤ a ∧
    (l.foldl (sensorStep car i) a = a ∨
      ∃ co ∈ l, 0 < rayProj car i co ∧
        l.foldl (sensorStep car i) a = rayDist car co) ∧
    (∀ co ∈ l, 0 < rayProj car i co →
      l.foldl (sensorStep car i) a ≤ rayDist car co) := by
  induction l generalizing a with
  | nil => exact ⟨le_refl a, Or.inl rfl, by simp⟩
  | cons cHead t ih =>
    have hle : sensorStep car i a cHead ≤ a := by
      unfold sensorStep
      split_ifs with hq hlt
      · exact le_of_lt hlt
      · exact le_refl a
      · exact le_refl a
    have hcases : sensorStep car i a cHead = a ∨
        (0 < rayProj car i cHead ∧
          sensorStep car i a cHead = rayDist car cHead) := by
      unfold sensorStep
      split_ifs with hq hlt
      · exact Or.inr ⟨hq, rfl⟩
      · exact Or.inl rfl
      · exact Or.inl rfl
    have hqle : 0 < rayProj car i cHead →
        sensorStep car i a cHead ≤ rayDist car cHead := by
      intro hq
      unfold sensorStep
      rw [if_pos hq]
      split_ifs with hlt
      · exact le_refl _
      · exact le_of_not_lt hlt
    obtain ⟨ih1, ih2, ih3⟩ := ih (sensorStep car i a cHead)
    simp only [List.foldl_cons]
    refine ⟨le_trans ih1 hle, ?_, ?_⟩
    · rcases ih2 with h | ⟨co, hco, hproj, heq⟩
      · rcases hcases with he | ⟨hp2, he⟩
        · exact Or.inl (h.trans he)
        · exact Or.inr ⟨cHead, List.mem_cons_self _ _, hp2, h.trans he⟩
      · exact Or.inr ⟨co, List.mem_cons_of_mem _ hco, hproj, heq⟩
    · intro co hco hproj
      rcases List.mem_cons.mp hco with rfl | hmem
      · exact le_trans ih1 (hqle hproj)
      · exact ih3 co hmem hproj

/-- The obstacle loop of update_sensors: the same three facts over all
corners of all obstacles. -/
theorem sensor_foldl_obstacles (car : CarPose) (i : Fin 8)
    (obstacles : List CarPose) (a : ℝ) :
    obstacles.foldl
      (fun acc obs => obs.get_corners.foldl (sensorStep car i) acc) a ≤ a ∧
    (obstacles.foldl
        (fun acc obs => obs.get_corners.foldl (sensorStep car i) acc) a = a ∨
      ∃ obs ∈ obstacles, ∃ co ∈ obs.get_corners, 0 < rayProj car i co ∧
        obstacles.foldl
          (fun acc obs => obs.get_corners.foldl (sensorStep car i) acc) a =
          rayDist car co) ∧
    (∀ obs ∈ obstacles, ∀ co ∈ obs.get_corners, 0 < rayProj car i co →
      obstacles.foldl
        (fun acc obs => obs.get_corners.foldl (sensorStep car i) acc) a ≤
        rayDist car co) := by
  induction obstacles generalizing a with
  | nil => exact ⟨le_refl a, Or.inl rfl, by simp⟩
  | cons o t ih =>
    obtain ⟨g1, g2, g3⟩ := sensor_foldl_corners car i o.get_corners a
    obtain ⟨ih1, ih2, ih3⟩ := ih (o.get_corners.foldl (sensorStep car i) a)
    simp only [List.foldl_cons]
    refine ⟨le_trans ih1 g1, ?_, ?_⟩
    · rcases ih2 with h | ⟨obs, hobs, co, hco, hproj, heq⟩
      · rcases g2 with he | ⟨co, hco, hproj, heq⟩
        · exact Or.inl (h.trans he)
        · exact Or.inr ⟨o, List.mem_cons_self _ _, co, hco, hproj, h.trans heq⟩
      · exact Or.inr ⟨obs, List.mem_cons_of_mem _ hobs, co, hco, hproj, heq⟩
    · intro obs hobs co hco hproj
      rcases List.mem_cons.mp hobs with rfl | hmem
      · exact le_trans ih1 (g3 co hco hproj)
      · exact ih3 obs hmem co hco hproj

/-- C6: after update_sensors, each of the 8 ray readings lies in
[0, SENSOR_RANGE] = [0, 400]; a ray onto which no obstacle corner
projects positively reads exactly 400; every positively-projecting
corner's Euclidean distance bounds the reading from below; and the
reading is either 400 or exactly the distance of some
positively-projecting obstacle corner — together: an obstructed ray
reports the minimum corner distance, clamped above at the range. -/
theorem c6_sensor_bounds (car : CarPose) (obstacles : List CarPose) (i : Fin 8) :
    (0 ≤ update_sensors car obstacles i ∧
      update_sensors car obstacles i ≤ 400) ∧
    ((∀ obs ∈ obstacles, ∀ co ∈ obs.get_corners, ¬ 0 < rayProj car i co) →
      update_sensors car obstacles i = 400) ∧
    (∀ obs ∈ obstacles, ∀ co ∈ obs.get_corners, 0 < rayProj car i co →
      update_sensors car obstacles i ≤ rayDist car co) ∧
    (update_sensors car obstacles i = 400 ∨
      ∃ obs ∈ obstacles, ∃ co ∈ obs.get_corners, 0 < rayProj car i co ∧
        update_sensors car obstacles i = rayDist car co) := by
  obtain ⟨h1, h2, h3⟩ := sensor_foldl_obstacles car i obstacles 400
  have hval : update_sensors car obstacles i =
      obstacles.foldl
        (fun acc obs => obs.get_corners.foldl (sensorStep car i) acc) 400 := rfl
  rw [hval]
  refine ⟨⟨?_, h1⟩, ?_, h3, h2⟩
  · rcases h2 with h | ⟨obs, hobs, co, hco, hproj, heq⟩
    · rw [h]; norm_num
    · rw [heq]; exact Real.sqrt_nonneg _
  · intro hnone
    rcases h2 with h | ⟨obs, hobs, co, hco, hproj, heq⟩
    · exact h
    · exact absurd hproj (hnone obs hobs co hco)

/-- C6 witness: with no obstacles, every hypothesis-bearing conjunct
instantiates; ray 0 of a car at the origin reads exactly the range. -/
theorem c6_witness : update_sensors ⟨0, 0, 0⟩ [] 0 = 400 :=
  (c6_sensor_bounds ⟨0, 0, 0⟩ [] 0).2.1 (by simp)

end Parking
